import Mathlib

/-!
Shallow embedding of the ByteStation-SDF storage layer
(src/server/storage.ts), a Mongoose-backed persistence service for a
freelance marketplace.  Collections are modelled as Lean lists of
document records; the asynchronous driver calls become pure functions
(or `Except`-valued functions where the source can raise); JavaScript
truthiness on optional strings (absent or empty counts as falsy) is
modelled explicitly, as is the coercion of `clientId` strings into
`mongoose.Types.ObjectId` values, which accepts exactly 12-character
strings and 24-character hexadecimal strings and throws otherwise.
-/

deriving instance DecidableEq for Except

namespace ByteStation

/-! ## ObjectId coercion (mongoose.Types.ObjectId) -/

/-- Hexadecimal digit test, used by the ObjectId constructor. -/
def isHexChar (c : Char) : Bool :=
  c.isDigit || (Char.ofNat 97 ≤ c && c ≤ Char.ofNat 102) ||
    (Char.ofNat 65 ≤ c && c ≤ Char.ofNat 70)

/-- A string is accepted by the ObjectId constructor iff it has 12
characters or is a 24-character hex string. -/
def isValidObjectIdString (s : String) : Bool :=
  s.length == 12 || (s.length == 24 && s.data.all isHexChar)

/-- An opaque document reference (mongoose ObjectId), carried as the
string it was coerced from. -/
structure ObjectId where
  val : String
deriving DecidableEq

/-- `new mongoose.Types.ObjectId(s)`: succeeds only on valid ObjectId
strings, throws (here: `none`) otherwise. -/
def coerceObjectId (s : String) : Option ObjectId :=
  if isValidObjectIdString s then some ⟨s⟩ else none

/-! ## JavaScript string helpers -/

/-- Drop leading whitespace characters. -/
def trimLeftChars : List Char → List Char
  | [] => []
  | c :: cs => if c.isWhitespace then trimLeftChars cs else c :: cs

/-- JavaScript `String.prototype.trim`: strip leading and trailing
whitespace. -/
def jsTrim (s : String) : String :=
  ⟨(trimLeftChars ((trimLeftChars s.data).reverse)).reverse⟩

/-- JavaScript `x || d` on an optional string field: absent (`none`)
and the empty string are falsy and yield the default. -/
def jsOr (o : Option String) (d : String) : String :=
  match o with
  | none => d
  | some s => if s = "" then d else s

/-- JavaScript falsiness of an optional string: `undefined` and `""`
are falsy. -/
def strFalsy (o : Option String) : Bool :=
  match o with
  | none => true
  | some s => s == ""

/-- The check `!x || x.length < n` on an optional string `x`
(short-circuit: the length is only read when `x` is truthy). -/
def lengthCheckFails (o : Option String) (n : Nat) : Bool :=
  strFalsy o || decide ((o.getD "").length < n)

/-- Length of a field after defaulting an absent value to `""` and
trimming, the quantity the createProject validation is about. -/
def trimmedLen (o : Option String) : Nat :=
  (jsTrim (o.getD "")).length

/-! ## Project creation (Storage.createProject) -/

/-- The caller-supplied field bag for `createProject` (`InsertProject`):
every field can be absent at runtime. -/
structure InsertProject where
  clientId : Option String
  title : Option String
  description : Option String
  requirements : Option String
  budget : Option String
  timeframe : Option String
  additionalDetails : Option String
  status : Option String
  skills : Option (List String)
deriving DecidableEq

/-- A persisted Project document as produced by `createProject`. -/
structure Project where
  clientId : ObjectId
  title : String
  description : String
  requirements : String
  budget : String
  timeframe : String
  additionalDetails : Option String
  status : String
  skills : List String
deriving DecidableEq

/-- The failures `createProject` can raise: the TypeError on reading
`.toString()` of an absent clientId, the ObjectId constructor failure,
and the three explicit validation errors. -/
inductive CPError where
  | clientIdMissing
  | clientIdInvalid
  | titleTooShort
  | descriptionTooShort
  | requirementsTooShort
deriving DecidableEq

/-- `Storage.createProject`: the object literal evaluates the clientId
coercion first (line 153), so an absent or non-coercible clientId
throws before any validation check runs; then title, description and
requirements are trimmed and checked in that order; defaults are the
JavaScript `||` fallbacks; skills defaults to the empty list. -/
def createProject (data : InsertProject) : Except CPError Project :=
  match data.clientId with
  | none => .error .clientIdMissing
  | some cid =>
    match coerceObjectId cid with
    | none => .error .clientIdInvalid
    | some oid =>
      if lengthCheckFails (data.title.map jsTrim) 10 then
        .error .titleTooShort
      else if lengthCheckFails (data.description.map jsTrim) 50 then
        .error .descriptionTooShort
      else if lengthCheckFails (data.requirements.map jsTrim) 20 then
        .error .requirementsTooShort
      else
        .ok {
          clientId := oid
          title := (data.title.map jsTrim).getD ""
          description := (data.description.map jsTrim).getD ""
          requirements := (data.requirements.map jsTrim).getD ""
          budget := jsOr data.budget "$1,000 - $5,000"
          timeframe := jsOr data.timeframe "2-4 weeks"
          additionalDetails := data.additionalDetails.map jsTrim
          status := jsOr data.status "open"
          skills := data.skills.getD [] }

/-- `createProject` together with its effect on the project
collection: on success the new document is inserted, on any failure
the collection is untouched (the error is raised before `save`). -/
def createProjectState (store : List Project) (data : InsertProject) :
    Except CPError Project × List Project :=
  match createProject data with
  | .error e => (.error e, store)
  | .ok p => (.ok p, store ++ [p])

/-- Whether an `Except` result is a success. -/
def succeeds (e : Except CPError Project) : Bool :=
  match e with
  | .ok _ => true
  | .error _ => false

/-- A concrete creation input whose trimmed field lengths all satisfy
the documented thresholds but whose clientId, the literal "U1" used by
the specification scenario, is not a valid ObjectId string. -/
def shortClientInput : InsertProject :=
  { clientId := some "U1"
    title := some "Need a landing page built"
    description :=
      some "A detailed description that is certainly longer than fifty characters in total."
    requirements := some "Requirements text well over twenty characters."
    budget := none, timeframe := none, additionalDetails := none
    status := none, skills := some ["react"] }

/-- A concrete creation input failing every length check, with a
non-coercible clientId. -/
def allShortInput : InsertProject :=
  { clientId := some "U1", title := some "x", description := some "y"
    requirements := some "z", budget := none, timeframe := none
    additionalDetails := none, status := none, skills := none }

/-- A concrete creation input with no clientId at all. -/
def noClientInput : InsertProject :=
  { clientId := none, title := some "x", description := some "y"
    requirements := some "z", budget := none, timeframe := none
    additionalDetails := none, status := none, skills := none }

/-- A concrete fully valid creation input (24-hex-character clientId)
omitting budget, timeframe and status. -/
def okInput : InsertProject :=
  { clientId := some "0123456789abcdef01234567"
    title := some "Need a landing page built"
    description :=
      some "A detailed description that is certainly longer than fifty characters in total."
    requirements := some "Requirements text well over twenty characters."
    budget := none, timeframe := none, additionalDetails := none
    status := none, skills := some ["react"] }

/-- The document `createProject okInput` produces. -/
def okProject : Project :=
  { clientId := ⟨"0123456789abcdef01234567"⟩
    title := "Need a landing page built"
    description :=
      "A detailed description that is certainly longer than fifty characters in total."
    requirements := "Requirements text well over twenty characters."
    budget := "$1,000 - $5,000"
    timeframe := "2-4 weeks"
    additionalDetails := none
    status := "open"
    skills := ["react"] }

/-- A concrete creation input with a coercible clientId whose title is
too short. -/
def shortTitleInput : InsertProject :=
  { clientId := some "0123456789abcdef01234567", title := some "short"
    description := some "y", requirements := some "z", budget := none
    timeframe := none, additionalDetails := none, status := none
    skills := none }

/-! ## Project listing (Storage.listProjects) -/

/-- A raw Project document as fetched from the collection for
`listProjects`, after the populate join.  String fields may be absent
at the document level (the method defends against that); `clientFullName`
is the `fullName` of the resolved owning User, `none` when the populate
could not resolve the reference.  `createdAt` is always present because
the schema fills it with a default at insert time. -/
structure ProjectRecord where
  title : Option String
  description : Option String
  requirements : Option String
  budget : Option String
  timeframe : Option String
  status : Option String
  clientFullName : Option String
  createdAt : Nat
deriving DecidableEq

/-- The normalized view `listProjects` returns: every field present. -/
structure ProjectView where
  title : String
  description : String
  requirements : String
  budget : String
  timeframe : String
  status : String
  clientName : String
  createdAt : Nat
deriving DecidableEq

instance : DecidableRel (fun a b : ProjectRecord => b.createdAt ≤ a.createdAt) :=
  fun _ _ => Nat.decLe _ _

instance : IsTotal ProjectRecord (fun a b => b.createdAt ≤ a.createdAt) :=
  ⟨fun a b => Nat.le_total b.createdAt a.createdAt⟩

instance : IsTrans ProjectRecord (fun a b => b.createdAt ≤ a.createdAt) :=
  ⟨fun _ _ _ hab hbc => Nat.le_trans hbc hab⟩

/-- The driver sort `.sort(\x7bcreatedAt: -1\x7d)`: newest first. -/
def sortByCreatedAtDesc (l : List ProjectRecord) : List ProjectRecord :=
  List.insertionSort (fun a b => b.createdAt ≤ a.createdAt) l

/-- The per-document normalization in `listProjects`: every displayed
field falls back to its documented default when absent or empty. -/
def projectToView (r : ProjectRecord) : ProjectView :=
  { title := jsOr r.title "Untitled"
    description := jsOr r.description "No description provided"
    requirements := jsOr r.requirements ""
    budget := jsOr r.budget "$1,000 - $5,000"
    timeframe := jsOr r.timeframe "2-4 weeks"
    status := jsOr r.status "open"
    clientName := jsOr r.clientFullName "Unknown Client"
    createdAt := r.createdAt }

/-- `Storage.listProjects`: the whole fetch (find, populate, sort) may
fail, in which case the catch block returns the empty list; on success
the fetched documents are sorted newest-first and normalized. -/
def listProjects (fetch : Except Unit (List ProjectRecord)) : List ProjectView :=
  match fetch with
  | .error _ => []
  | .ok docs => (sortByCreatedAtDesc docs).map projectToView

/-! ## Users (Storage.createUser / getUser / updateUser) -/

/-- A persisted User document. -/
structure User where
  id : String
  username : String
  password : String
  email : String
  userType : String
  fullName : String
  company : Option String
  bio : Option String
  isVerified : Bool
  createdAt : Nat
deriving DecidableEq

/-- The caller-supplied field bag for `createUser` (`InsertUser`). -/
structure InsertUser where
  username : String
  password : String
  email : String
  userType : String
  fullName : String
  company : Option String
  bio : Option String
deriving DecidableEq

/-- Store-level failures for User writes: the unique-index violation
on username or email (mongo E11000). -/
inductive UserWriteError where
  | conflict
deriving DecidableEq

/-- `Storage.createUser`: `new UserModel(data).save()`.  The unique
indexes on username and email reject the insert when either value is
already present; otherwise the document is inserted with the schema
defaults (`isVerified := false`, `createdAt := now`) and the generated
id. -/
def createUser (store : List User) (data : InsertUser) (newId : String)
    (now : Nat) : Except UserWriteError User × List User :=
  if store.any (fun u => u.username == data.username || u.email == data.email) then
    (.error .conflict, store)
  else
    let u : User := {
      id := newId
      username := data.username
      password := data.password
      email := data.email
      userType := data.userType
      fullName := data.fullName
      company := data.company
      bio := data.bio
      isVerified := false
      createdAt := now }
    (.ok u, store ++ [u])

/-- `UserModel.findById(id.toString())`: mongoose casts the id string
to an ObjectId and throws a CastError on malformed input, otherwise
looks the document up. -/
def findByIdUser (store : List User) (id : String) :
    Except Unit (Option User) :=
  if isValidObjectIdString id then
    .ok (store.find? (fun u => u.id == id))
  else
    .error ()

/-- `Storage.getUser`: wraps the lookup in try/catch, so a malformed
id (or any lookup failure) is swallowed and yields `none`; the store
is never modified. -/
def getUser (store : List User) (id : String) : Option User × List User :=
  match findByIdUser store id with
  | .error _ => (none, store)
  | .ok r => (r, store)

/-- A `Partial<InsertUser>` update document: `none` means the field is
absent from the partial and left unchanged. -/
structure UserUpdate where
  username : Option String
  password : Option String
  email : Option String
  userType : Option String
  fullName : Option String
  company : Option String
  bio : Option String
deriving DecidableEq

/-- The empty partial `\x7b\x7d`. -/
def emptyUpdate : UserUpdate :=
  { username := none, password := none, email := none, userType := none
    fullName := none, company := none, bio := none }

/-- Field-wise merge of a partial update into a document
(mongo `$set` of exactly the supplied fields). -/
def applyUpdate (u : User) (d : UserUpdate) : User :=
  { u with
    username := d.username.getD u.username
    password := d.password.getD u.password
    email := d.email.getD u.email
    userType := d.userType.getD u.userType
    fullName := d.fullName.getD u.fullName
    company := match d.company with | none => u.company | some c => some c
    bio := match d.bio with | none => u.bio | some c => some c }

/-- `Storage.updateUser`: `findByIdAndUpdate(id, data, \x7bnew: true\x7d)`
returns the post-update document, or `none` when no document has the
id (ids are unique in the collection, so at most one document is
touched). -/
def updateUser (store : List User) (id : String) (d : UserUpdate) :
    Option User × List User :=
  match store.find? (fun u => u.id == id) with
  | none => (none, store)
  | some u =>
    (some (applyUpdate u d),
     store.map (fun v => if v.id == id then applyUpdate v d else v))

/-! ## Reviews (Storage.createReview / listTestimonials) -/

/-- A Review document at the raw collection level.  The schema has no
`featured` path, but a document in the collection could in principle
carry one, so it is modelled as an optional raw field. -/
structure Review where
  projectId : Nat
  clientId : Nat
  hackerId : Nat
  rating : Nat
  comment : Option String
  createdAt : Nat
  featured : Option Bool
deriving DecidableEq

/-- The caller-supplied field bag for `createReview`. -/
structure InsertReview where
  projectId : Nat
  clientId : Nat
  hackerId : Nat
  rating : Nat
  comment : Option String
deriving DecidableEq

/-- `Storage.createReview`: `new ReviewModel(data).save()`.  Mongoose
strict mode keeps only schema paths, and the Review schema has no
`featured` path, so the stored document never carries `featured`. -/
def createReview (store : List Review) (data : InsertReview) (now : Nat) :
    List Review :=
  store ++ [{
    projectId := data.projectId
    clientId := data.clientId
    hackerId := data.hackerId
    rating := data.rating
    comment := data.comment
    createdAt := now
    featured := none }]

/-- `Storage.listTestimonials`: `ReviewModel.find(\x7bfeatured: true\x7d)`. -/
def listTestimonials (store : List Review) : List Review :=
  store.filter (fun r => r.featured == some true)

/-- Review-collection states reachable through the write operations of
this layer: the only write path that touches Reviews is
`createReview`. -/
inductive ReviewReachable : List Review → Prop
  | empty : ReviewReachable []
  | create (store : List Review) (data : InsertReview) (now : Nat) :
      ReviewReachable store → ReviewReachable (createReview store data now)

/-! ## Bulk delete (Storage.deleteProjects) -/

/-- A Project document as addressed by `deleteProjects` (ids are
modelled abstractly as the values matched by the `$in` filter). -/
structure StoredProject where
  id : Nat
  title : String
deriving DecidableEq

/-- `Storage.deleteProjects`: `deleteMany(\x7b_id: \x7b$in: ids\x7d\x7d)` removes
every document whose id occurs in `ids` and reports how many documents
were removed. -/
def deleteProjects (store : List StoredProject) (ids : List Nat) :
    Nat × List StoredProject :=
  ((store.filter (fun p => ids.contains p.id)).length,
   store.filter (fun p => !(ids.contains p.id)))

/-! ## Concrete sample data -/

/-- A raw project record with every optional field absent. -/
def sampleRecord : ProjectRecord :=
  ⟨none, none, none, none, none, none, none, 5⟩

/-- A concrete stored User. -/
def sampleUser : User :=
  ⟨"0123456789abcdef01234567", "alice", "pw", "alice@example.com",
   "client", "Alice A", none, none, false, 0⟩

/-- A User creation input reusing the username of `sampleUser`. -/
def conflictInsert : InsertUser :=
  ⟨"alice", "pw2", "other@example.com", "client", "Alice B", none, none⟩

/-! ## Lemmas about the createProject validation -/

lemma jsTrim_empty : jsTrim "" = "" := rfl

lemma lengthCheckFails_map_trim (o : Option String) (n : Nat) (hn : 0 < n) :
    lengthCheckFails (o.map jsTrim) n = decide (trimmedLen o < n) := by
  cases o with
  | none =>
    simp only [Option.map_none', lengthCheckFails, strFalsy, Bool.true_or,
      trimmedLen, Option.getD_none, jsTrim_empty]
    simp [hn]
  | some s =>
    simp only [Option.map_some', lengthCheckFails, strFalsy, Option.getD_some,
      trimmedLen]
    by_cases h : jsTrim s = ""
    · have h0 : (jsTrim s).length = 0 := by rw [h]; rfl
      simp [h, h0, hn]
    · have hb : (jsTrim s == "") = false := by
        simp [h]
      simp [hb]

/-- With a coercible clientId, `createProject` reduces to the ordered
chain of the three trimmed-length checks. -/
lemma createProject_reduce (data : InsertProject) (cid : String)
    (oid : ObjectId) (hc : data.clientId = some cid)
    (ho : coerceObjectId cid = some oid) :
    createProject data =
      if trimmedLen data.title < 10 then .error .titleTooShort
      else if trimmedLen data.description < 50 then .error .descriptionTooShort
      else if trimmedLen data.requirements < 20 then .error .requirementsTooShort
      else .ok {
        clientId := oid
        title := (data.title.map jsTrim).getD ""
        description := (data.description.map jsTrim).getD ""
        requirements := (data.requirements.map jsTrim).getD ""
        budget := jsOr data.budget "$1,000 - $5,000"
        timeframe := jsOr data.timeframe "2-4 weeks"
        additionalDetails := data.additionalDetails.map jsTrim
        status := jsOr data.status "open"
        skills := data.skills.getD [] } := by
  simp only [createProject, hc, ho,
    lengthCheckFails_map_trim data.title 10 (by norm_num),
    lengthCheckFails_map_trim data.description 50 (by norm_num),
    lengthCheckFails_map_trim data.requirements 20 (by norm_num),
    decide_eq_true_eq]

/-! ## C1 -/

/-- C1 (counterexample): an input whose trimmed title, description and
requirements all meet the thresholds, yet whose creation fails,
because the clientId "U1" (the very value the specification scenario
uses) cannot be coerced to an ObjectId.  This refutes the unrestricted
"succeeds if and only if the three lengths suffice". -/
theorem createProject_iff_cex :
    10 ≤ trimmedLen shortClientInput.title ∧
    50 ≤ trimmedLen shortClientInput.description ∧
    20 ≤ trimmedLen shortClientInput.requirements ∧
    succeeds (createProject shortClientInput) = false := by decide

/-- C1 (amended): for every creation input whose clientId is present
and coercible to an ObjectId, `createProject` succeeds iff the trimmed
title has length at least 10, the trimmed description at least 50 and
the trimmed requirements at least 20; any failure is raised before the
insert, leaving the project collection unchanged, and each validation
failure matches its failing check. -/
theorem createProject_valid_iff (store : List Project)
    (data : InsertProject) (cid : String) (oid : ObjectId)
    (hc : data.clientId = some cid) (ho : coerceObjectId cid = some oid) :
    (succeeds (createProject data) = true ↔
      (10 ≤ trimmedLen data.title ∧ 50 ≤ trimmedLen data.description ∧
       20 ≤ trimmedLen data.requirements)) ∧
    (∀ e, createProject data = .error e →
      createProjectState store data = (.error e, store)) ∧
    (createProject data = .error .titleTooShort → trimmedLen data.title < 10) ∧
    (createProject data = .error .descriptionTooShort →
      trimmedLen data.description < 50) ∧
    (createProject data = .error .requirementsTooShort →
      trimmedLen data.requirements < 20) := by
  have hred := createProject_reduce data cid oid hc ho
  refine ⟨?_, fun e he => by simp [createProjectState, he], ?_, ?_, ?_⟩ <;>
    by_cases h1 : trimmedLen data.title < 10 <;>
    by_cases h2 : trimmedLen data.description < 50 <;>
    by_cases h3 : trimmedLen data.requirements < 20 <;>
    simp [hred, h1, h2, h3, succeeds] <;> omega

/-- C1 (witness): the amended theorem applied to the concrete valid
input. -/
theorem createProject_valid_iff_witness :
    succeeds (createProject okInput) = true ↔
      (10 ≤ trimmedLen okInput.title ∧ 50 ≤ trimmedLen okInput.description ∧
       20 ≤ trimmedLen okInput.requirements) :=
  (createProject_valid_iff [] okInput "0123456789abcdef01234567"
    ⟨"0123456789abcdef01234567"⟩ rfl (by decide)).1

/-! ## C4 -/

/-- C4 (counterexample): an input failing all three length checks does
not fail with the title-length error, because its non-coercible
clientId throws first. -/
theorem createProject_order_cex :
    trimmedLen allShortInput.title < 10 ∧
    trimmedLen allShortInput.description < 50 ∧
    trimmedLen allShortInput.requirements < 20 ∧
    createProject allShortInput = .error .clientIdInvalid ∧
    createProject allShortInput ≠ .error .titleTooShort := by decide

/-- C4 (amended): for inputs whose clientId is present and coercible
(the coercion runs first and its failure preempts all validation), the
validation checks are decided in the order title, description,
requirements, and the raised failure is the one for the first check
that fails; in particular such an input failing several checks fails
with the title-length error. -/
theorem createProject_order (data : InsertProject) (cid : String)
    (oid : ObjectId) (hc : data.clientId = some cid)
    (ho : coerceObjectId cid = some oid) :
    (trimmedLen data.title < 10 →
      createProject data = .error .titleTooShort) ∧
    (10 ≤ trimmedLen data.title → trimmedLen data.description < 50 →
      createProject data = .error .descriptionTooShort) ∧
    (10 ≤ trimmedLen data.title → 50 ≤ trimmedLen data.description →
      trimmedLen data.requirements < 20 →
      createProject data = .error .requirementsTooShort) := by
  have hred := createProject_reduce data cid oid hc ho
  refine ⟨fun h1 => ?_, fun h1 h2 => ?_, fun h1 h2 h3 => ?_⟩
  · rw [hred, if_pos h1]
  · rw [hred, if_neg (by omega), if_pos h2]
  · rw [hred, if_neg (by omega), if_neg (by omega), if_pos h3]

/-- C4 (witness): the amended theorem applied to a concrete input with
a coercible clientId and a short title. -/
theorem createProject_order_witness :
    createProject shortTitleInput = .error .titleTooShort :=
  (createProject_order shortTitleInput "0123456789abcdef01234567"
    ⟨"0123456789abcdef01234567"⟩ rfl (by decide)).1 (by decide)

/-! ## C5 -/

/-- C5: every successful creation that omitted budget, timeframe and
status gets the documented defaults, and its skills are exactly the
caller-supplied list (empty when none was supplied). -/
theorem createProject_defaults (data : InsertProject) (p : Project)
    (hok : createProject data = .ok p) (hb : data.budget = none)
    (ht : data.timeframe = none) (hs : data.status = none) :
    p.status = "open" ∧ p.budget = "$1,000 - $5,000" ∧
    p.timeframe = "2-4 weeks" ∧ p.skills = data.skills.getD [] := by
  cases hcl : data.clientId with
  | none => simp [createProject, hcl] at hok
  | some cid =>
    cases hco : coerceObjectId cid with
    | none => simp [createProject, hcl, hco] at hok
    | some oid =>
      rw [createProject_reduce data cid oid hcl hco] at hok
      split at hok
      · exact absurd hok (by simp)
      · split at hok
        · exact absurd hok (by simp)
        · split at hok
          · exact absurd hok (by simp)
          · have hp := Except.ok.inj hok
            rw [← hp]
            simp [jsOr, hb, ht, hs]

/-- C5 (witness): the theorem applied to the concrete valid input and
the document it produces. -/
theorem createProject_defaults_witness :
    okProject.status = "open" ∧ okProject.budget = "$1,000 - $5,000" ∧
    okProject.timeframe = "2-4 weeks" ∧
    okProject.skills = okInput.skills.getD [] :=
  createProject_defaults okInput okProject (by decide) rfl rfl rfl

/-! ## C10 -/

/-- C10: an absent or non-coercible clientId makes `createProject`
throw from the clientId coercion itself, whatever the title,
description and requirements are, and the project collection is
unchanged.  The raised failure is the coercion failure, not any of the
three validation failures, so the coercion is decided before every
length check. -/
theorem createProject_clientId_first (store : List Project)
    (data : InsertProject) :
    (data.clientId = none →
      createProjectState store data = (.error .clientIdMissing, store)) ∧
    (∀ s, data.clientId = some s → coerceObjectId s = none →
      createProjectState store data = (.error .clientIdInvalid, store)) := by
  constructor
  · intro h
    simp [createProjectState, createProject, h]
  · intro s hs hinv
    simp [createProjectState, createProject, hs, hinv]

/-- C10 (witness): the theorem applied to the concrete input without a
clientId. -/
theorem createProject_clientId_first_witness :
    createProjectState [] noClientInput = (.error .clientIdMissing, []) :=
  (createProject_clientId_first [] noClientInput).1 rfl

/-! ## C2 -/

lemma jsOr_cases (o : Option String) (d : String) :
    jsOr o d = d ∨ o = some (jsOr o d) := by
  cases o with
  | none => exact Or.inl rfl
  | some s =>
    by_cases h : s = ""
    · exact Or.inl (by simp [jsOr, h])
    · exact Or.inr (by simp [jsOr, h])

lemma view_field_cases (docs : List ProjectRecord) (r : ProjectRecord)
    (hr : r ∈ docs) (f : ProjectRecord → Option String) (d : String) :
    jsOr (f r) d = d ∨ some (jsOr (f r) d) ∈ docs.map f := by
  rcases jsOr_cases (f r) d with h | h
  · exact Or.inl h
  · exact Or.inr (List.mem_map.mpr ⟨r, hr, h⟩)

/-- C2: `listProjects` never raises; a failed fetch yields the empty
list; on success the items are ordered by creation time descending,
and every field of every returned item is populated, being either the
documented fallback default or a value present on some fetched
document. -/
theorem listProjects_spec :
    listProjects (.error ()) = [] ∧
    ∀ docs : List ProjectRecord,
      List.Chain' (fun a b : ProjectView => b.createdAt ≤ a.createdAt)
        (listProjects (.ok docs)) ∧
      ∀ v ∈ listProjects (.ok docs),
        (v.title = "Untitled" ∨ some v.title ∈ docs.map (fun r => r.title)) ∧
        (v.description = "No description provided" ∨
          some v.description ∈ docs.map (fun r => r.description)) ∧
        (v.requirements = "" ∨
          some v.requirements ∈ docs.map (fun r => r.requirements)) ∧
        (v.budget = "$1,000 - $5,000" ∨
          some v.budget ∈ docs.map (fun r => r.budget)) ∧
        (v.timeframe = "2-4 weeks" ∨
          some v.timeframe ∈ docs.map (fun r => r.timeframe)) ∧
        (v.status = "open" ∨ some v.status ∈ docs.map (fun r => r.status)) ∧
        (v.clientName = "Unknown Client" ∨
          some v.clientName ∈ docs.map (fun r => r.clientFullName)) := by
  refine ⟨rfl, fun docs => ⟨?_, ?_⟩⟩
  · have hs := List.sorted_insertionSort
      (fun a b : ProjectRecord => b.createdAt ≤ a.createdAt) docs
    have hp : List.Pairwise (fun a b : ProjectView => b.createdAt ≤ a.createdAt)
        ((sortByCreatedAtDesc docs).map projectToView) := by
      rw [List.pairwise_map]
      exact hs
    exact hp.chain'
  · intro v hv
    simp only [listProjects, List.mem_map] at hv
    obtain ⟨r, hr, hvr⟩ := hv
    have hrdocs : r ∈ docs :=
      (List.perm_insertionSort
        (fun a b : ProjectRecord => b.createdAt ≤ a.createdAt) docs).subset hr
    subst hvr
    exact ⟨view_field_cases docs r hrdocs (fun r => r.title) "Untitled",
      view_field_cases docs r hrdocs (fun r => r.description)
        "No description provided",
      view_field_cases docs r hrdocs (fun r => r.requirements) "",
      view_field_cases docs r hrdocs (fun r => r.budget) "$1,000 - $5,000",
      view_field_cases docs r hrdocs (fun r => r.timeframe) "2-4 weeks",
      view_field_cases docs r hrdocs (fun r => r.status) "open",
      view_field_cases docs r hrdocs (fun r => r.clientFullName)
        "Unknown Client"⟩

/-- C2 (witness): the theorem applied to a one-record fetch whose
record has every optional field absent. -/
theorem listProjects_spec_witness :
    List.Chain' (fun a b : ProjectView => b.createdAt ≤ a.createdAt)
      (listProjects (.ok [sampleRecord])) ∧
    (((projectToView sampleRecord).title = "Untitled" ∨
       some (projectToView sampleRecord).title ∈
         [sampleRecord].map (fun r => r.title)) ∧
     ((projectToView sampleRecord).description = "No description provided" ∨
       some (projectToView sampleRecord).description ∈
         [sampleRecord].map (fun r => r.description)) ∧
     ((projectToView sampleRecord).requirements = "" ∨
       some (projectToView sampleRecord).requirements ∈
         [sampleRecord].map (fun r => r.requirements)) ∧
     ((projectToView sampleRecord).budget = "$1,000 - $5,000" ∨
       some (projectToView sampleRecord).budget ∈
         [sampleRecord].map (fun r => r.budget)) ∧
     ((projectToView sampleRecord).timeframe = "2-4 weeks" ∨
       some (projectToView sampleRecord).timeframe ∈
         [sampleRecord].map (fun r => r.timeframe)) ∧
     ((projectToView sampleRecord).status = "open" ∨
       some (projectToView sampleRecord).status ∈
         [sampleRecord].map (fun r => r.status)) ∧
     ((projectToView sampleRecord).clientName = "Unknown Client" ∨
       some (projectToView sampleRecord).clientName ∈
         [sampleRecord].map (fun r => r.clientFullName))) :=
  ⟨(listProjects_spec.2 [sampleRecord]).1,
   (listProjects_spec.2 [sampleRecord]).2 (projectToView sampleRecord)
     (by decide)⟩

/-! ## C3 -/

/-- C3: creating a User whose username or email is already present in
the store fails with the conflict error and leaves the user collection
(and hence its count) unchanged. -/
theorem createUser_conflict (store : List User) (data : InsertUser)
    (newId : String) (now : Nat)
    (h : ∃ u ∈ store, u.username = data.username ∨ u.email = data.email) :
    (createUser store data newId now).1 = .error .conflict ∧
    ((createUser store data newId now).2).length = store.length ∧
    (createUser store data newId now).2 = store := by
  obtain ⟨u, hu, hcase⟩ := h
  have hany : store.any
      (fun u => u.username == data.username || u.email == data.email) = true := by
    rw [List.any_eq_true]
    exact ⟨u, hu, by rcases hcase with h | h <;> simp [h]⟩
  simp [createUser, hany]

/-- C3 (witness): the theorem applied to a store holding `sampleUser`
and an insert reusing its username. -/
theorem createUser_conflict_witness :
    (createUser [sampleUser] conflictInsert "ffffffffffffffffffffffff" 1).1 =
      .error .conflict ∧
    ((createUser [sampleUser] conflictInsert "ffffffffffffffffffffffff" 1).2).length =
      [sampleUser].length ∧
    (createUser [sampleUser] conflictInsert "ffffffffffffffffffffffff" 1).2 =
      [sampleUser] :=
  createUser_conflict [sampleUser] conflictInsert "ffffffffffffffffffffffff" 1
    (by decide)

/-! ## C6 -/

lemma filter_or_not_mem (l : List Nat) (a : Nat) (q : Nat → Bool)
    (ha : a ∉ l) :
    l.filter (fun i => a == i || q i) = l.filter q :=
  List.filter_congr (fun i hi => by
    have hne : a ≠ i := fun he => ha (he ▸ hi)
    simp [hne])

lemma filter_or_singleton (l : List Nat) (a : Nat) (q : Nat → Bool)
    (hl : l.Nodup) (hq : q a = false) (ha : a ∈ l) :
    (l.filter (fun i => a == i || q i)).length = (l.filter q).length + 1 := by
  induction l with
  | nil => cases ha
  | cons x xs ih =>
    have hx : x ∉ xs := (List.nodup_cons.mp hl).1
    have hxs : xs.Nodup := (List.nodup_cons.mp hl).2
    by_cases hax : a = x
    · subst hax
      have hrest : xs.filter (fun i => a == i || q i) = xs.filter q :=
        filter_or_not_mem xs a q hx
      rw [List.filter_cons, List.filter_cons]
      simp [hq, hrest]
    · have ha' : a ∈ xs := List.mem_of_ne_of_mem hax ha
      have hcond : (a == x || q x) = q x := by simp [hax]
      rw [List.filter_cons, List.filter_cons, hcond]
      cases hqx : q x with
      | false => simpa using ih hxs ha'
      | true => simp [ih hxs ha']

lemma deleteCount_eq (store : List StoredProject) (ids : List Nat)
    (h : (store.map (fun p => p.id)).Nodup) :
    (store.filter (fun p => ids.contains p.id)).length =
      (ids.dedup.filter (fun i => store.any (fun p => p.id == i))).length := by
  induction store with
  | nil => simp
  | cons p rest ih =>
    have h1 : p.id ∉ rest.map (fun q => q.id) := by
      simp only [List.map_cons, List.nodup_cons] at h
      exact h.1
    have h2 : (rest.map (fun q => q.id)).Nodup := by
      simp only [List.map_cons, List.nodup_cons] at h
      exact h.2
    have hq : rest.any (fun q => q.id == p.id) = false := by
      rw [List.any_eq_false]
      intro q hqm hbeq
      exact h1 (List.mem_map.mpr ⟨q, hqm, by simpa using hbeq⟩)
    have hcongr : ids.dedup.filter (fun i => (p :: rest).any fun q => q.id == i)
        = ids.dedup.filter (fun i => p.id == i || rest.any fun q => q.id == i) :=
      List.filter_congr (fun i _ => by simp [List.any_cons])
    rw [List.filter_cons, hcongr]
    by_cases hmem : p.id ∈ ids
    · have hc : (fun p : StoredProject => ids.contains p.id) p = true := by
        simp [hmem]
      rw [if_pos hc, List.length_cons, ih h2,
        filter_or_singleton ids.dedup p.id _ (List.nodup_dedup ids) hq
          (List.mem_dedup.mpr hmem)]
    · rw [if_neg (by simp [hmem]), ih h2,
        filter_or_not_mem ids.dedup p.id _
          (fun hmem2 => hmem (List.mem_dedup.mp hmem2))]

/-- C6: `deleteProjects` returns the number of (distinct) supplied ids
that matched an existing document, removes exactly the matched
documents, and for an empty or all-nonexistent id list returns 0 and
leaves the collection unchanged.  Document ids are unique in the
collection (the mongo primary-key invariant). -/
theorem deleteProjects_spec (store : List StoredProject) (ids : List Nat)
    (h : (store.map (fun p => p.id)).Nodup) :
    (deleteProjects store ids).1 =
      (ids.dedup.filter (fun i => store.any (fun p => p.id == i))).length ∧
    (∀ p, p ∈ (deleteProjects store ids).2 ↔ (p ∈ store ∧ p.id ∉ ids)) ∧
    (ids = [] → deleteProjects store ids = (0, store)) ∧
    ((∀ i ∈ ids, ∀ p ∈ store, p.id ≠ i) →
      deleteProjects store ids = (0, store)) := by
  refine ⟨deleteCount_eq store ids h, ?_, ?_, ?_⟩
  · intro p
    simp [deleteProjects, List.mem_filter]
  · intro hids
    subst hids
    simp [deleteProjects]
  · intro hnone
    have h1 : store.filter (fun p => ids.contains p.id) = [] := by
      rw [List.filter_eq_nil_iff]
      intro p hp
      have hnin : p.id ∉ ids := fun hin => hnone p.id hin p hp rfl
      simp [hnin]
    have h2 : store.filter (fun p => !(ids.contains p.id)) = store := by
      rw [List.filter_eq_self]
      intro p hp
      have hnin : p.id ∉ ids := fun hin => hnone p.id hin p hp rfl
      simp [hnin]
    have h0 : (store.filter (fun p => ids.contains p.id)).length = 0 := by
      rw [h1]; rfl
    simp only [deleteProjects, h0, h2, Prod.mk.injEq, true_and]

/-- C6 (witness): the count component at a concrete store and id list
(with a duplicated id). -/
theorem deleteProjects_spec_witness :
    (deleteProjects [⟨1, "a"⟩, ⟨2, "b"⟩] [2, 3, 2]).1 =
      (([2, 3, 2] : List Nat).dedup.filter
        (fun i => ([⟨1, "a"⟩, ⟨2, "b"⟩] : List StoredProject).any
          (fun p => p.id == i))).length :=
  (deleteProjects_spec [⟨1, "a"⟩, ⟨2, "b"⟩] [2, 3, 2] (by decide)).1

/-! ## C7 -/

lemma applyUpdate_empty (u : User) : applyUpdate u emptyUpdate = u := rfl

/-- C7: updating a User with the empty partial returns the stored
document unchanged and leaves the whole collection exactly as it
was. -/
theorem updateUser_empty (store : List User) (id : String) (u : User)
    (hfind : store.find? (fun v => v.id == id) = some u) :
    (updateUser store id emptyUpdate).1 = some u ∧
    (updateUser store id emptyUpdate).2 = store := by
  have hmap : store.map
      (fun v => if v.id == id then applyUpdate v emptyUpdate else v) = store := by
    have hpt : ∀ v : User,
        (if v.id == id then applyUpdate v emptyUpdate else v) = v := by
      intro v
      rw [applyUpdate_empty]
      split <;> rfl
    simp only [hpt]
    exact List.map_id store
  constructor
  · unfold updateUser
    rw [hfind]
    rfl
  · unfold updateUser
    rw [hfind]
    exact hmap

/-- C7 (witness): the theorem applied to a store holding `sampleUser`
and its own id. -/
theorem updateUser_empty_witness :
    (updateUser [sampleUser] "0123456789abcdef01234567" emptyUpdate).1 =
      some sampleUser ∧
    (updateUser [sampleUser] "0123456789abcdef01234567" emptyUpdate).2 =
      [sampleUser] :=
  updateUser_empty [sampleUser] "0123456789abcdef01234567" sampleUser
    (by decide)

/-! ## C8 -/

/-- C8: `getUser` is total (the try/catch swallows the lookup failure):
a malformed id yields the not-found sentinel, a well-formed id yields
the first stored document with that id (or the sentinel), and the
store is unchanged in every case. -/
theorem getUser_spec (store : List User) (id : String) :
    (getUser store id).2 = store ∧
    (isValidObjectIdString id = false → (getUser store id).1 = none) ∧
    (isValidObjectIdString id = true →
      (getUser store id).1 = store.find? (fun u => u.id == id)) := by
  refine ⟨?_, fun hbad => ?_, fun hgood => ?_⟩
  · by_cases hv : isValidObjectIdString id = true
    · simp [getUser, findByIdUser, hv]
    · simp [getUser, findByIdUser, hv]
  · simp [getUser, findByIdUser, hbad]
  · simp [getUser, findByIdUser, hgood]

/-- C8 (witness): the theorem applied to the malformed id "U1" and to
a store holding `sampleUser`. -/
theorem getUser_spec_witness :
    (getUser [sampleUser] "U1").1 = none ∧
    (getUser [sampleUser] "U1").2 = [sampleUser] :=
  ⟨(getUser_spec [sampleUser] "U1").2.1 (by decide),
   (getUser_spec [sampleUser] "U1").1⟩

/-! ## C9 -/

/-- C9: in every Review-collection state reachable through the write
operations of this layer (the only Review write path is
`createReview`, and strict mode never stores a `featured` flag),
`listTestimonials` returns the empty list. -/
theorem listTestimonials_reachable_empty (store : List Review)
    (h : ReviewReachable store) : listTestimonials store = [] := by
  induction h with
  | empty => rfl
  | create store data now _ ih =>
    simp only [listTestimonials, createReview, List.filter_append] at ih ⊢
    simp [ih]

/-- C9 (witness): the theorem applied to the store obtained by one
`createReview` call on the empty collection. -/
theorem listTestimonials_reachable_empty_witness :
    listTestimonials (createReview [] ⟨1, 2, 3, 5, none⟩ 0) = [] :=
  listTestimonials_reachable_empty (createReview [] ⟨1, 2, 3, 5, none⟩ 0)
    (ReviewReachable.create [] ⟨1, 2, 3, 5, none⟩ 0 ReviewReachable.empty)

end ByteStation
